import Mathlib

/-!
Shallow embedding of the AI media buying agent (davidheincz/ai-media-buying-agent).

The definitions below are translated from the Python sources:
  * `src/ai_integration/app.py`: decision routing (`evaluate_and_execute_rules`),
    decision execution (`execute_decision`), approval endpoints
    (`approve_decision`, `reject_decision`);
  * `src/document_processor/knowledge_base.py`: rule creation (`create_rule`)
    and rule evaluation (`evaluate_rules`);
  * `src/facebook_ads_manager/enhanced_manager.py`: the retrying API client
    (`MetaAPIClient.api_call`, `handle_api_error`).

Machine floats are modelled by rationals (the budget arithmetic in the code
consists of a handful of multiplications and divisions whose rounding error is
far below the 1e-9 tolerance the specification grants); Python dictionaries by
association lists; HTTP responses by `Option`-valued environment functions
(`none` models a non-200 response); raised `HTTPException`s by `Except.error`.
-/

namespace MediaBuying

/-- Python `s.startswith(p)` for a single-character `p`. -/
def strStartsWith (s : String) (p : Char) : Bool :=
  match s.data with
  | [] => false
  | c :: _ => c = p

/-- Python `s.replace("%", "")`: removes every occurrence of `'%'`. -/
def stripPercent (s : String) : String :=
  ⟨s.data.filter (fun c => c ≠ '%')⟩

/-- Value of a digit string, most significant first (helper for `pyFloat`). -/
def digitsToNat (cs : List Char) : Nat :=
  cs.foldl (fun n c => 10 * n + (c.toNat - '0'.toNat)) 0

/-- Unsigned decimal numeral: digits, optionally with one decimal point
(`"25"`, `"2.5"`, `"25."`, `".5"`); anything else is rejected, matching the
`ValueError` raised by Python `float`. -/
def parseUnsigned (cs : List Char) : Option ℚ :=
  let intPart := cs.takeWhile (fun c => c ≠ '.')
  let rest := cs.dropWhile (fun c => c ≠ '.')
  let fracPart := rest.drop 1
  if (intPart ++ fracPart).isEmpty then none
  else if (intPart ++ fracPart).all Char.isDigit then
    if rest.isEmpty then some (digitsToNat intPart : ℚ)
    else some ((digitsToNat intPart : ℚ) + (digitsToNat fracPart : ℚ) / (10 : ℚ) ^ fracPart.length)
  else none

/-- Python `float(s)` on the numeral strings this program feeds it: an optional
sign followed by an unsigned decimal numeral.  `none` models the raised
`ValueError`.  Note that `float` keeps the sign: `float("-25") = -25.0`. -/
def pyFloat (s : String) : Option ℚ :=
  match s.data with
  | '+' :: rest => parseUnsigned rest
  | '-' :: rest => (parseUnsigned rest).map (fun q => -q)
  | cs => parseUnsigned cs

/-!
## Decision routing (`evaluate_and_execute_rules`, app.py lines 657-671)

For each action of each triggered rule the automation loop creates a Decision
record with status `"pending"` and then routes it:

```
if automation_level == "autonomous":
    await execute_decision(decision.id, db)
elif automation_level == "hybrid":
    if action["action_type"] == "adjust_budget" and not action["action_value"].startswith("+"):
        await execute_decision(decision.id, db)
    else:
        decision.status = "pending_approval"
else:  # approval_required
    decision.status = "pending_approval"
```
-/

/-- Where a freshly created decision is routed. -/
inductive RouteOutcome where
  | immediate       -- `execute_decision` is invoked at once
  | pendingApproval -- status is set to `"pending_approval"`
  deriving DecidableEq, Repr

/-- The routing branch of `evaluate_and_execute_rules` (app.py 657-671). -/
def route_decision (automationLevel actionType actionValue : String) : RouteOutcome :=
  if automationLevel = "autonomous" then .immediate
  else if automationLevel = "hybrid" then
    if actionType = "adjust_budget" && !(strStartsWith actionValue '+') then .immediate
    else .pendingApproval
  else .pendingApproval

/-!
## Budget arithmetic (`execute_decision`, app.py 713-727 and 760-774)

When the action value starts with `"+"` or `"-"` the code computes

```
percentage = float(action_value.replace("%", "")) / 100
if action_value.startswith("+"):
    new_budget = current_budget * (1 + percentage)
else:  # Starts with "-"
    new_budget = current_budget * (1 - percentage)
```

The same block appears verbatim for the ad-set branch and the campaign
branch; it is embedded once.  `none` models the `ValueError` from `float`,
which the surrounding `try` converts into a failed decision.
-/

/-- New budget for a signed `action_value`; `currentBudget` is the value the
code read from the remote object (after its `.get(..., 0)` default). -/
def percentage_new_budget (currentBudget : ℚ) (actionValue : String) : Option ℚ :=
  match pyFloat (stripPercent actionValue) with
  | none => none
  | some v =>
    let percentage := v / 100
    if strStartsWith actionValue '+' then some (currentBudget * (1 + percentage))
    else some (currentBudget * (1 - percentage))

/-!
## Knowledge-base rules (`src/document_processor/knowledge_base.py`)

`RuleCondition`, `RuleAction` and `RuleEntry` mirror the SQLAlchemy models
(columns that the claims never touch — ids of conditions/actions, timestamps,
descriptions — are omitted).  `RuleEntryCreate` mirrors the pydantic request
model: `conditions` and `actions` are required lists with no emptiness
constraint.
-/

structure RuleCondition where
  condition_type : String
  operator : String
  value : ℚ
  deriving DecidableEq, Repr

structure RuleAction where
  action_type : String
  action_value : String
  priority : Int
  deriving DecidableEq, Repr

structure RuleEntry where
  id : String
  knowledge_id : Option String
  name : String
  priority : Int
  is_active : Bool
  conditions : List RuleCondition
  actions : List RuleAction
  deriving DecidableEq, Repr

structure RuleEntryCreate where
  knowledge_id : Option String
  name : String
  priority : Int
  is_active : Bool
  conditions : List RuleCondition
  actions : List RuleAction
  deriving DecidableEq, Repr

/-- `create_rule` (knowledge_base.py 434-490).  If a `knowledge_id` is given it
must exist (`knowledgeIds` models the knowledge_entries table), else HTTP 404;
otherwise the rule is stored with all given conditions and actions — there is
no check on `rule.conditions` being nonempty.  `newId` stands for the
`uuid.uuid4()` the code generates. -/
def create_rule (knowledgeIds : List String) (newId : String) (r : RuleEntryCreate) :
    Except String RuleEntry :=
  match r.knowledge_id with
  | some kid =>
    if kid ∈ knowledgeIds then
      .ok ⟨newId, r.knowledge_id, r.name, r.priority, r.is_active, r.conditions, r.actions⟩
    else .error "Knowledge entry not found"
  | none =>
    .ok ⟨newId, r.knowledge_id, r.name, r.priority, r.is_active, r.conditions, r.actions⟩

/-- One condition of the evaluation loop of `evaluate_rules`
(knowledge_base.py 612-643): a condition whose `condition_type` is absent from
`metrics` fails; a present metric is compared with the condition's operator;
an operator outside `> >= < <= =` matches no branch and therefore does not
falsify the condition. -/
def condMet (metrics : List (String × ℚ)) (c : RuleCondition) : Bool :=
  match metrics.lookup c.condition_type with
  | none => false
  | some metricValue =>
    if c.operator = ">" then decide (metricValue > c.value)
    else if c.operator = ">=" then decide (metricValue ≥ c.value)
    else if c.operator = "<" then decide (metricValue < c.value)
    else if c.operator = "<=" then decide (metricValue ≤ c.value)
    else if c.operator = "=" then decide (metricValue = c.value)
    else true

/-- The `conditions_met` flag: the Python `for`/`break` loop is a conjunction
over the rule's conditions (vacuously `True` on an empty list). -/
def conditionsMet (metrics : List (String × ℚ)) (conds : List RuleCondition) : Bool :=
  conds.all (condMet metrics)

/-- Stable insertion into a descending-sorted list: the new element goes after
every element of equal or higher key (helper for `sortByPriorityDesc`). -/
def insertDesc {α : Type} (key : α → Int) (x : α) : List α → List α
  | [] => [x]
  | y :: ys => if key x ≤ key y then y :: insertDesc key x ys else x :: y :: ys

/-- Python `sorted(..., key=..., reverse=True)` / `list.sort(key=...,
reverse=True)`: a stable sort by descending key. -/
def sortByPriorityDesc {α : Type} (key : α → Int) (l : List α) : List α :=
  l.foldl (fun acc x => insertDesc key x acc) []

/-- The entry the evaluator appends for a triggered rule. -/
structure TriggeredRule where
  rule_id : String
  name : String
  priority : Int
  actions : List RuleAction
  deriving DecidableEq, Repr

/-- The triggered set of `evaluate_rules` before the final sort: the active
rules all of whose conditions are met (the endpoint's optional
`condition_types` filter is not supplied by any caller in this repository and
is omitted). -/
def triggeredOf (metrics : List (String × ℚ)) (rules : List RuleEntry) : List RuleEntry :=
  (rules.filter (fun r => r.is_active)).filter (fun r => conditionsMet metrics r.conditions)

/-- The dictionary appended to `triggered_rules`, with the rule's actions
sorted by the action's own priority descending. -/
def mkTriggered (r : RuleEntry) : TriggeredRule :=
  ⟨r.id, r.name, r.priority, sortByPriorityDesc (fun a => a.priority) r.actions⟩

/-- `evaluate_rules` (knowledge_base.py 612-659): collect the triggered rules
in input order, then `triggered_rules.sort(key=priority, reverse=True)`. -/
def evaluate_rules (metrics : List (String × ℚ)) (rules : List RuleEntry) :
    List TriggeredRule :=
  sortByPriorityDesc (fun tr => tr.priority) ((triggeredOf metrics rules).map mkTriggered)

/-!
## Decisions and their execution (`src/ai_integration/app.py`)

`AIDecision` mirrors the SQLAlchemy model (app.py 60-73): its columns are
id, user_id, campaign_id, adset_id, decision_type, decision_details (a JSON
string), reasoning, status, created_at, updated_at, executed_at — there is no
column for an error message.  `decision_details` is modelled by the record the
automation loop serialises into it; the claims only use its
`"action_value"` key.  Time is an abstract tick `Env.now`
(`datetime.utcnow()`).
-/

structure DecisionDetails where
  action_value : String
  deriving DecidableEq, Repr

structure AIDecision where
  id : String
  user_id : String
  campaign_id : Option String
  adset_id : Option String
  decision_type : String
  decision_details : DecisionDetails
  reasoning : Option String
  status : String
  executed_at : Option Nat
  deriving DecidableEq, Repr

/-- Body of a 200 response to `GET /adsets/{id}`; `budget` may be absent
(`adset.get("budget", 0)` defaults it to 0). -/
structure AdsetInfo where
  budget : Option ℚ
  deriving DecidableEq, Repr

/-- Body of a 200 response to `GET /campaigns/{id}`. -/
structure CampaignInfo where
  daily_budget : Option ℚ
  account_id : Option String
  deriving DecidableEq, Repr

/-- The remote mutations `execute_decision` can issue against the Facebook
ads manager service. -/
inductive RemoteCall where
  | putAdsetBudget (adsetId : String) (budget : ℚ)
  | putCampaignBudget (campaignId : String) (dailyBudget : ℚ)
  | putAdsetStatus (adsetId : String) (newStatus : String)
  | postCampaign (accountId : String) (objective : String)
  deriving DecidableEq, Repr

/-- The remote world `execute_decision` talks to.  `none` from a getter models
a non-200 response; `writeOk` tells whether a mutation returns 200. -/
structure Env where
  now : Nat
  getAdset : String → Option AdsetInfo
  getCampaign : String → Option CampaignInfo
  writeOk : RemoteCall → Bool

/-- Python truthiness of an optional string (`if decision.adset_id:` is false
both for `None` and for `""`). -/
def presentStr : Option String → Option String
  | none => none
  | some s => if s = "" then none else some s

/-- Python string interpolation of an optional value into a URL
(`f"../{None}/.."` renders as `"None"`). -/
def optStr : Option String → String
  | none => "None"
  | some s => s

/-- Net effect of one run of the `try` body of `execute_decision`:
final status, whether `executed_at` was stamped, the remote mutations issued,
and the messages sent to `logger.error` (which is the only place an error
reason goes — the decision record has no error column). -/
structure ExecEffect where
  newStatus : String
  setExecutedAt : Bool
  calls : List RemoteCall
  logs : List String
  deriving DecidableEq, Repr

/-- Terminal effect of a failure path that has not issued any write: status
`"failed"`, the branch's `logger.error` line, nothing else. -/
def failEff (msg : String) : ExecEffect := ⟨"failed", false, [], [msg]⟩

/-- Issue one remote write: a 200 falls through to `status = "executed"`,
anything else sets `"failed"` and logs the branch's message (this `if/return`
pair appears once per mutation in the Python function). -/
def writeEff (env : Env) (call : RemoteCall) (failMsg : String) : ExecEffect :=
  if env.writeOk call then ⟨"executed", true, [call], []⟩
  else ⟨"failed", false, [call], [failMsg]⟩

/-- Shared shape of the four budget-update branches of `execute_decision`:
parse the new budget (`none` is the `ValueError` from `float`, which the outer
`except` turns into a failed decision with its generic log line) and then
issue the `PUT .../budget` request. -/
def budgetWriteEff (env : Env) (mkCall : ℚ → RemoteCall) (parsed : Option ℚ)
    (failMsg : String) : ExecEffect :=
  match parsed with
  | none => failEff "Error executing decision"
  | some b => writeEff env (mkCall b) failMsg

/-- Effect of `execute_decision` (app.py 678-859) as a function of the fields
the code reads: `decision_type`, `adset_id`, `campaign_id` and
`details["action_value"]`.  The Python function never reads
`decision.status`.  Every branch either falls through to
`status = "executed"` or sets `status = "failed"` and logs. -/
def execute_core (env : Env) (decisionType : String) (adsetId campaignId : Option String)
    (actionValue : String) : ExecEffect :=
  if decisionType = "adjust_budget" then
    match presentStr adsetId with
    | some aid =>
      if strStartsWith actionValue '+' || strStartsWith actionValue '-' then
        match env.getAdset aid with
        | none => failEff "Error getting ad set"
        | some adset =>
          budgetWriteEff env (RemoteCall.putAdsetBudget aid)
            (percentage_new_budget (adset.budget.getD 0) actionValue)
            "Error updating ad set budget"
      else
        budgetWriteEff env (RemoteCall.putAdsetBudget aid) (pyFloat actionValue)
          "Error updating ad set budget"
    | none =>
      match presentStr campaignId with
      | some cid =>
        if strStartsWith actionValue '+' || strStartsWith actionValue '-' then
          match env.getCampaign cid with
          | none => failEff "Error getting campaign"
          | some campaign =>
            budgetWriteEff env (RemoteCall.putCampaignBudget cid)
              (percentage_new_budget (campaign.daily_budget.getD 0) actionValue)
              "Error updating campaign budget"
        else
          budgetWriteEff env (RemoteCall.putCampaignBudget cid) (pyFloat actionValue)
            "Error updating campaign budget"
      | none => ⟨"executed", true, [], []⟩
  else if decisionType = "toggle_adset" then
    writeEff env (RemoteCall.putAdsetStatus (optStr adsetId) actionValue)
      "Error updating ad set status"
  else if decisionType = "create_campaign" then
    match env.getCampaign (optStr campaignId) with
    | none => failEff "Error getting campaign"
    | some campaign =>
      match presentStr campaign.account_id with
      | none => failEff "Account ID not found in campaign"
      | some accountId =>
        writeEff env (RemoteCall.postCampaign accountId actionValue)
          "Error creating campaign"
  else ⟨"executed", true, [], []⟩

/-- Result of `execute_decision`: the decision row after the final commit,
the remote mutations issued, and the log lines. -/
structure ExecResult where
  decision : AIDecision
  calls : List RemoteCall
  logs : List String
  deriving DecidableEq, Repr

/-- `execute_decision` (app.py 678-859) on an existing decision row.  It only
ever updates `status` and (on success) `executed_at`. -/
def execute_decision (env : Env) (d : AIDecision) : ExecResult :=
  let eff := execute_core env d.decision_type d.adset_id d.campaign_id
    d.decision_details.action_value
  let d2 := { d with
    status := eff.newStatus
    executed_at := if eff.setExecutedAt then some env.now else d.executed_at }
  ⟨d2, eff.calls, eff.logs⟩

/-- `approve_decision` endpoint (app.py 1001-1026).  `none` models a missing
row (HTTP 404); a status other than `"pending_approval"` raises HTTP 400
before any state change; otherwise `execute_decision` runs. -/
def approve_decision (env : Env) (found : Option AIDecision) : Except String ExecResult :=
  match found with
  | none => .error "Decision not found"
  | some d =>
    if d.status ≠ "pending_approval" then
      .error ("Decision is not pending approval: " ++ d.status)
    else .ok (execute_decision env d)

/-- `reject_decision` endpoint (app.py 1028-1054): same guard, then the status
is set to `"rejected"`. -/
def reject_decision (found : Option AIDecision) : Except String AIDecision :=
  match found with
  | none => .error "Decision not found"
  | some d =>
    if d.status ≠ "pending_approval" then
      .error ("Decision is not pending approval: " ++ d.status)
    else .ok { d with status := "rejected" }

/-!
## Retrying API client (`src/facebook_ads_manager/enhanced_manager.py`)

`handle_api_error` (lines 240-284) first checks
`retry_count >= self.max_retries` and refuses to retry; otherwise rate-limit
codes (4, 17, 32, 613) sleep and retry, an auth error (190) retries iff the
token refresh succeeds, the remaining transient codes (1, 2, 341, 368) back
off and retry, and anything else is non-retryable.  `api_call` (286-321) is a
`while True` loop: call, and on `FacebookRequestError` either retry with
`retry_count + 1` or raise `MetaAPIError`.
-/

/-- Category of a `FacebookRequestError`, as classified by
`handle_api_error`. -/
inductive FBError where
  | rateLimit   -- error codes 4, 17, 32, 613
  | authError   -- error code 190
  | transient   -- error codes 1, 2, 341, 368
  | permanent   -- everything else
  deriving DecidableEq, Repr

/-- `handle_api_error`: should the call be retried?  `refreshOk` tells
whether the token refresh in the auth branch succeeds. -/
def handle_api_error (maxRetries : Nat) (refreshOk : Bool) (e : FBError)
    (retryCount : Nat) : Bool :=
  if maxRetries ≤ retryCount then false
  else
    match e with
    | .rateLimit => true
    | .authError => refreshOk
    | .transient => true
    | .permanent => false

/-- Outcome of `api_call`, counting how many times `func` was invoked:
`ok` is a normal return, `failed` is the raised `MetaAPIError`. -/
inductive CallResult where
  | ok (attempts : Nat)
  | failed (attempts : Nat)
  deriving DecidableEq, Repr

/-- Number of attempts a `CallResult` records. -/
def attemptsOf : CallResult → Nat
  | .ok n => n
  | .failed n => n

/-- The `while True` loop of `api_call`.  `server n` is the error the n-th
invocation of `func` raises (`none` = success).  `fuel` is only a structural
bound: retries happen only while `retryCount < maxRetries`, so starting from
`fuel = maxRetries + 1` at `retryCount = 0` the fuel-exhausted branch is
unreachable. -/
def api_call_aux (maxRetries : Nat) (refreshOk : Bool) (server : Nat → Option FBError) :
    Nat → Nat → Nat → CallResult
  | 0, _, att => .failed att
  | fuel + 1, retryCount, att =>
    match server att with
    | none => .ok (att + 1)
    | some e =>
      if handle_api_error maxRetries refreshOk e retryCount then
        api_call_aux maxRetries refreshOk server fuel (retryCount + 1) (att + 1)
      else .failed (att + 1)

/-- `MetaAPIClient.api_call` with the given `max_retries` configuration. -/
def api_call (maxRetries : Nat) (refreshOk : Bool) (server : Nat → Option FBError) :
    CallResult :=
  api_call_aux maxRetries refreshOk server (maxRetries + 1) 0 0

/-!
## Concrete test fixtures
-/

/-- A remote world where every request gets a non-200 response. -/
def envDown : Env := ⟨0, fun _ => none, fun _ => none, fun _ => false⟩

/-- A remote world where every mutation succeeds. -/
def envUp : Env := ⟨0, fun _ => none, fun _ => none, fun _ => true⟩

/-- A pending budget-increase decision on ad set `as1`. -/
def decisionBudgetPlus : AIDecision :=
  ⟨"d1", "u1", none, some "as1", "adjust_budget", ⟨"+20%"⟩, none, "pending", none⟩

/-- A toggle decision that has already been executed. -/
def decisionToggleDone : AIDecision :=
  ⟨"d2", "u1", none, some "as1", "toggle_adset", ⟨"PAUSED"⟩, none, "executed", none⟩

/-- An active rule with an empty condition list. -/
def ruleNoCond : RuleEntry :=
  ⟨"r-empty", none, "empty rule", 1, true, [], [⟨"toggle_adset", "PAUSED", 1⟩]⟩

/-- An active rule conditioned on the `CTR` metric. -/
def ruleCTR : RuleEntry :=
  ⟨"r-ctr", none, "ctr rule", 1, true, [⟨"CTR", "<", 1⟩], [⟨"toggle_adset", "PAUSED", 1⟩]⟩

/-- Unconditional rules of priorities 5, 1 and 9, for the ordering example. -/
def ruleP5 : RuleEntry := ⟨"r5", none, "five", 5, true, [], []⟩

/-- See `ruleP5`. -/
def ruleP1 : RuleEntry := ⟨"r1", none, "one", 1, true, [], []⟩

/-- See `ruleP5`. -/
def ruleP9 : RuleEntry := ⟨"r9", none, "nine", 9, true, [], []⟩

end MediaBuying

open MediaBuying

/-!
## Helper lemmas about the stable descending sort
-/

/-- Membership is preserved by `insertDesc`. -/
theorem mem_insertDesc {α : Type} (key : α → Int) (x z : α) (l : List α) :
    z ∈ insertDesc key x l ↔ z = x ∨ z ∈ l := by
  induction l with
  | nil => simp [insertDesc]
  | cons y ys ih =>
    by_cases h : key x ≤ key y
    · simp only [insertDesc, if_pos h, List.mem_cons, ih]
      tauto
    · simp only [insertDesc, if_neg h, List.mem_cons]

/-- `insertDesc` preserves descending sortedness. -/
theorem pairwise_insertDesc {α : Type} (key : α → Int) (x : α) (l : List α)
    (h : l.Pairwise (fun a b => key b ≤ key a)) :
    (insertDesc key x l).Pairwise (fun a b => key b ≤ key a) := by
  induction l with
  | nil => simp [insertDesc]
  | cons y ys ih =>
    rw [List.pairwise_cons] at h
    obtain ⟨hy, hys⟩ := h
    by_cases hxy : key x ≤ key y
    · rw [insertDesc, if_pos hxy, List.pairwise_cons]
      refine ⟨fun z hz => ?_, ih hys⟩
      rcases (mem_insertDesc key x z ys).mp hz with hz | hz
      · exact hz ▸ hxy
      · exact hy z hz
    · rw [insertDesc, if_neg hxy, List.pairwise_cons]
      refine ⟨fun z hz => ?_, List.pairwise_cons.mpr ⟨hy, hys⟩⟩
      rcases List.mem_cons.mp hz with hz | hz
      · subst hz; omega
      · have := hy z hz; omega

/-- Stability of one insertion into a descending-sorted list: the elements of
any fixed key keep their order, the new element landing after its equals. -/
theorem filter_insertDesc {α : Type} (key : α → Int) (p : Int) (x : α) (l : List α)
    (hs : l.Pairwise (fun a b => key b ≤ key a)) :
    (insertDesc key x l).filter (fun a => decide (key a = p))
      = if key x = p then l.filter (fun a => decide (key a = p)) ++ [x]
        else l.filter (fun a => decide (key a = p)) := by
  induction l with
  | nil =>
    by_cases hxp : key x = p <;> simp [insertDesc, hxp]
  | cons y ys ih =>
    rw [List.pairwise_cons] at hs
    obtain ⟨hy, hys⟩ := hs
    by_cases hxy : key x ≤ key y
    · rw [insertDesc, if_pos hxy]
      by_cases hxp : key x = p <;> by_cases hyp : key y = p <;>
        simp [List.filter_cons, hxp, hyp, ih hys]
    · rw [insertDesc, if_neg hxy]
      have hnil : (y :: ys).filter (fun a => decide (key a = p)) = []
          ∨ ¬ key x = p := by
        by_cases hxp : key x = p
        · left
          rw [List.filter_eq_nil_iff]
          intro z hz
          rcases List.mem_cons.mp hz with hz | hz
          · subst hz; simp; omega
          · have := hy z hz; simp; omega
        · right; exact hxp
      by_cases hxp : key x = p
      · rcases hnil with hnil | hnil
        · simp [List.filter_cons, hxp, hnil]
        · exact absurd hxp hnil
      · simp [List.filter_cons, hxp]

/-- The foldl of `sortByPriorityDesc` keeps the accumulator sorted and is
stable: for each key value, the output restricted to that key is the
accumulator's part followed by the input's part in input order. -/
theorem sortByPriorityDesc_invariant {α : Type} (key : α → Int) (l : List α) :
    ∀ acc : List α, acc.Pairwise (fun a b => key b ≤ key a) →
      (l.foldl (fun acc x => insertDesc key x acc) acc).Pairwise
        (fun a b => key b ≤ key a) ∧
      ∀ p : Int,
        (l.foldl (fun acc x => insertDesc key x acc) acc).filter
            (fun a => decide (key a = p))
          = acc.filter (fun a => decide (key a = p))
              ++ l.filter (fun a => decide (key a = p)) := by
  induction l with
  | nil => intro acc hacc; simp [hacc]
  | cons x xs ih =>
    intro acc hacc
    have hacc2 := pairwise_insertDesc key x acc hacc
    obtain ⟨hsorted, hstable⟩ := ih (insertDesc key x acc) hacc2
    refine ⟨hsorted, fun p => ?_⟩
    rw [List.foldl_cons, hstable p, filter_insertDesc key p x acc hacc]
    by_cases hxp : key x = p <;> simp [List.filter_cons, hxp]

/-- `sortByPriorityDesc` output is sorted by descending key. -/
theorem sortByPriorityDesc_pairwise {α : Type} (key : α → Int) (l : List α) :
    (sortByPriorityDesc key l).Pairwise (fun a b => key b ≤ key a) :=
  (sortByPriorityDesc_invariant key l [] (by simp)).1

/-- `sortByPriorityDesc` is stable: elements of equal key keep their relative
input order. -/
theorem sortByPriorityDesc_stable {α : Type} (key : α → Int) (l : List α) (p : Int) :
    (sortByPriorityDesc key l).filter (fun a => decide (key a = p))
      = l.filter (fun a => decide (key a = p)) := by
  have := (sortByPriorityDesc_invariant key l [] (by simp)).2 p
  simpa [sortByPriorityDesc] using this

/-- `sortByPriorityDesc` neither adds nor removes elements. -/
theorem mem_sortByPriorityDesc {α : Type} (key : α → Int) (l : List α) (z : α) :
    z ∈ sortByPriorityDesc key l ↔ z ∈ l := by
  suffices h : ∀ acc : List α, z ∈ l.foldl (fun acc x => insertDesc key x acc) acc
      ↔ z ∈ acc ∨ z ∈ l by
    simpa [sortByPriorityDesc] using h []
  induction l with
  | nil => intro acc; simp
  | cons x xs ih =>
    intro acc
    rw [List.foldl_cons, ih (insertDesc key x acc), mem_insertDesc]
    simp
    tauto


/-!
## Helper lemmas about the retry loop and the execution engine
-/

/-- Against a server that rate-limits every attempt, the loop with `fuel`
remaining makes exactly `fuel` more attempts (one initial attempt plus one
retry per remaining retry budget) and then fails. -/
theorem api_call_aux_rateLimit (maxRetries : Nat) (refreshOk : Bool) :
    ∀ fuel retryCount att, retryCount + fuel = maxRetries + 1 →
      api_call_aux maxRetries refreshOk (fun _ => some FBError.rateLimit) fuel retryCount att
        = CallResult.failed (att + fuel) := by
  intro fuel
  induction fuel with
  | zero => intro rc att h; simp [api_call_aux]
  | succ n ih =>
    intro rc att h
    simp only [api_call_aux]
    by_cases hle : maxRetries ≤ rc
    · have hn : n = 0 := by omega
      subst hn
      simp [handle_api_error, hle]
    · simp only [handle_api_error, if_neg hle, if_true]
      rw [ih (rc + 1) (att + 1) (by omega)]
      congr 1
      omega

/-- The attempt count of the retry loop is bounded by the remaining fuel. -/
theorem attemptsOf_api_call_aux_le (maxRetries : Nat) (refreshOk : Bool)
    (server : Nat → Option FBError) :
    ∀ fuel retryCount att,
      attemptsOf (api_call_aux maxRetries refreshOk server fuel retryCount att)
        ≤ att + fuel := by
  intro fuel
  induction fuel with
  | zero => intro rc att; simp [api_call_aux, attemptsOf]
  | succ n ih =>
    intro rc att
    simp only [api_call_aux]
    cases hs : server att with
    | none =>
      simp only [attemptsOf]
      omega
    | some e =>
      by_cases hr : handle_api_error maxRetries refreshOk e rc = true
      · simp only [if_pos hr]
        have := ih (rc + 1) (att + 1)
        omega
      · simp only [if_neg hr, attemptsOf]
        omega

/-- A single remote write ends executed or failed-with-log. -/
theorem writeEff_status (env : Env) (call : RemoteCall) (msg : String) :
    ((writeEff env call msg).newStatus = "executed"
        ∧ (writeEff env call msg).setExecutedAt = true) ∨
    ((writeEff env call msg).newStatus = "failed"
        ∧ (writeEff env call msg).logs ≠ []) := by
  unfold writeEff
  split <;> simp

/-- A budget-update branch ends executed or failed-with-log. -/
theorem budgetWriteEff_status (env : Env) (mkCall : ℚ → RemoteCall)
    (parsed : Option ℚ) (msg : String) :
    ((budgetWriteEff env mkCall parsed msg).newStatus = "executed"
        ∧ (budgetWriteEff env mkCall parsed msg).setExecutedAt = true) ∨
    ((budgetWriteEff env mkCall parsed msg).newStatus = "failed"
        ∧ (budgetWriteEff env mkCall parsed msg).logs ≠ []) := by
  cases parsed with
  | none => simp [budgetWriteEff, failEff]
  | some b => exact writeEff_status env (mkCall b) msg

/-- Every branch of the `try` body of `execute_decision` ends in one of the
two terminal effects: `"executed"` with the timestamp set, or `"failed"` with
the error logged. -/
theorem execute_core_status (env : Env) (dt : String) (aid cid : Option String)
    (v : String) :
    ((execute_core env dt aid cid v).newStatus = "executed"
        ∧ (execute_core env dt aid cid v).setExecutedAt = true) ∨
    ((execute_core env dt aid cid v).newStatus = "failed"
        ∧ (execute_core env dt aid cid v).logs ≠ []) := by
  unfold execute_core
  repeat' split
  all_goals first
  | exact writeEff_status _ _ _
  | exact budgetWriteEff_status _ _ _ _
  | simp [failEff]

/-!
## The claims
-/

/-- C1, counterexample: under `hybrid`, an `adjust_budget` decision whose
action value is the unsigned absolute budget `"50"` is routed to immediate
execution although its value does not carry the decrease sign `"-"` — the
code only tests `not startswith("+")`. -/
theorem C1_counterexample :
    route_decision "hybrid" "adjust_budget" "50" = RouteOutcome.immediate ∧
    strStartsWith "50" '-' = false := by
  decide

/-- C1, amended: under the `hybrid` automation level a decision is routed to
immediate execution iff its type is `adjust_budget` and its action value does
not start with `"+"`; budget increases and all other action types are routed
to `pending_approval`. -/
theorem C1_hybrid_routing (actionType actionValue : String) :
    route_decision "hybrid" actionType actionValue = RouteOutcome.immediate ↔
      (actionType = "adjust_budget" ∧ strStartsWith actionValue '+' = false) := by
  by_cases h1 : actionType = "adjust_budget" <;>
    by_cases h2 : strStartsWith actionValue '+' <;>
      simp [route_decision, h1, h2]

/-- C2: evaluating the budget arithmetic of `execute_decision` at the
specification's own examples.  `"+20%"` gives 120 as specified, but `"-25%"`
gives 125, not 75: `float("-25") / 100 = -0.25` keeps the sign, and the
`"-"` branch computes `100 * (1 - (-0.25))`.  An unsigned value parses as an
absolute budget. -/
theorem C2_percentage_sign_bug :
    percentage_new_budget 100 "-25%" = some 125 ∧
    percentage_new_budget 100 "+20%" = some 120 ∧
    pyFloat "50" = some 50 := by
  refine ⟨?_, ?_, rfl⟩ <;>
  · simp +decide [percentage_new_budget, pyFloat, stripPercent, parseUnsigned,
      digitsToNat, strStartsWith]
    norm_num

/-- C3, counterexample: `create_rule` stores a rule whose condition list is
empty, and the evaluator treats that rule as triggered (its condition loop is
vacuously true). -/
theorem C3_counterexample :
    create_rule [] "r-empty"
        ⟨none, "empty rule", 1, true, [], [⟨"toggle_adset", "PAUSED", 1⟩]⟩
      = Except.ok ruleNoCond ∧
    ruleNoCond ∈ triggeredOf [("CPA", 50)] [ruleNoCond] :=
  ⟨rfl, by decide⟩

/-- C3, amended: rule creation accepts an empty condition list (no validation
rejects it), and the stored active rule is triggered by the evaluator on
every metric snapshot. -/
theorem C3_empty_conditions_accepted_and_triggered (knowledgeIds : List String)
    (newId : String) (rc : RuleEntryCreate) (metrics : List (String × ℚ))
    (hk : rc.knowledge_id = none) (hempty : rc.conditions = [])
    (hact : rc.is_active = true) :
    ∃ stored : RuleEntry, create_rule knowledgeIds newId rc = Except.ok stored ∧
      stored ∈ triggeredOf metrics [stored] := by
  refine ⟨⟨newId, rc.knowledge_id, rc.name, rc.priority, rc.is_active,
    rc.conditions, rc.actions⟩, ?_, ?_⟩
  · simp [create_rule, hk]
  · simp [triggeredOf, conditionsMet, hempty, hact, List.mem_filter]

/-- C3, witness: a concrete empty-condition creation request is accepted and
its rule is triggered on the empty metric snapshot. -/
theorem C3_witness :
    ∃ stored : RuleEntry,
      create_rule [] "r-x" ⟨none, "e", 1, true, [], []⟩ = Except.ok stored ∧
      stored ∈ triggeredOf [] [stored] :=
  C3_empty_conditions_accepted_and_triggered [] "r-x"
    ⟨none, "e", 1, true, [], []⟩ [] rfl rfl rfl

/-- C4, counterexample: an automation request with the unknown level
`"bogus"` is not rejected; its decisions are routed (to `pending_approval`),
exactly like under `approval_required` — even a budget decrease that `hybrid`
would execute immediately. -/
theorem C4_counterexample :
    route_decision "bogus" "toggle_adset" "PAUSED" = RouteOutcome.pendingApproval ∧
    route_decision "bogus" "adjust_budget" "-10%" = RouteOutcome.pendingApproval ∧
    route_decision "bogus" "adjust_budget" "-10%"
      = route_decision "approval_required" "adjust_budget" "-10%" := by
  decide

/-- C4, amended: there is no input validation of the automation level; any
level other than `autonomous` and `hybrid` falls into the `else` branch and is
silently treated as `approval_required`, routing every decision to
`pending_approval`. -/
theorem C4_unknown_level_defaults (lvl actionType actionValue : String)
    (h1 : lvl ≠ "autonomous") (h2 : lvl ≠ "hybrid") :
    route_decision lvl actionType actionValue = RouteOutcome.pendingApproval ∧
    route_decision lvl actionType actionValue
      = route_decision "approval_required" actionType actionValue := by
  simp [route_decision, h1, h2]

/-- C4, witness: the amended claim at the concrete unknown level `"bogus"`. -/
theorem C4_witness :
    route_decision "bogus" "toggle_adset" "ACTIVE" = RouteOutcome.pendingApproval :=
  (C4_unknown_level_defaults "bogus" "toggle_adset" "ACTIVE"
    (by decide) (by decide)).1

/-- C5: a rule one of whose conditions references a metric absent from the
snapshot fails its condition loop and never appears in the evaluator's
triggered set, whatever the operator, value and other conditions. -/
theorem C5_missing_metric_never_triggers (metrics : List (String × ℚ))
    (r : RuleEntry) (c : RuleCondition) (hc : c ∈ r.conditions)
    (habsent : metrics.lookup c.condition_type = none) :
    conditionsMet metrics r.conditions = false ∧
    ∀ rules : List RuleEntry, r ∉ triggeredOf metrics rules := by
  have hcm : condMet metrics c = false := by
    unfold condMet
    rw [habsent]
  have hall : conditionsMet metrics r.conditions = false := by
    unfold conditionsMet
    simp only [List.all_eq_false]
    exact ⟨c, hc, by simp [hcm]⟩
  refine ⟨hall, fun rules hmem => ?_⟩
  have htrig := (List.mem_filter.mp hmem).2
  rw [hall] at htrig
  exact Bool.false_ne_true htrig

/-- C5, witness: a rule conditioned on `CTR` is not triggered by a snapshot
that only contains `CPA`. -/
theorem C5_witness :
    conditionsMet [("CPA", (5 : ℚ))] ruleCTR.conditions = false ∧
    ruleCTR ∉ triggeredOf [("CPA", (5 : ℚ))] [ruleCTR] := by
  have h := C5_missing_metric_never_triggers [("CPA", (5 : ℚ))] ruleCTR
    ⟨"CTR", "<", 1⟩ (by simp [ruleCTR]) rfl
  exact ⟨h.1, h.2 [ruleCTR]⟩

/-- C6: for an existing decision, `approve` and `reject` succeed iff its
status is `pending_approval`; on any other status both endpoints raise
HTTP 400 before touching the record, and a successful reject stores the
record with status `rejected`. -/
theorem C6_approve_reject_gate (env : Env) (d : AIDecision) :
    ((∃ r, approve_decision env (some d) = Except.ok r)
        ↔ d.status = "pending_approval") ∧
    ((∃ d2, reject_decision (some d) = Except.ok d2)
        ↔ d.status = "pending_approval") ∧
    (d.status = "pending_approval" →
      reject_decision (some d) = Except.ok { d with status := "rejected" }) ∧
    (d.status ≠ "pending_approval" →
      approve_decision env (some d)
          = Except.error ("Decision is not pending approval: " ++ d.status) ∧
      reject_decision (some d)
          = Except.error ("Decision is not pending approval: " ++ d.status)) := by
  by_cases h : d.status = "pending_approval" <;>
    simp [approve_decision, reject_decision, h]

/-- C6, witness: approving or rejecting an already-executed decision errors
out with the 400 message. -/
theorem C6_witness :
    approve_decision envDown (some decisionToggleDone)
        = Except.error ("Decision is not pending approval: "
            ++ decisionToggleDone.status) ∧
    reject_decision (some decisionToggleDone)
        = Except.error ("Decision is not pending approval: "
            ++ decisionToggleDone.status) :=
  (C6_approve_reject_gate envDown decisionToggleDone).2.2.2 (by decide)

/-- C7, counterexample: when the remote read fails, the decision ends
`"failed"` but the persisted record is the original one with only the status
changed — the error context exists only in the log, the record has no column
for it. -/
theorem C7_counterexample :
    (execute_decision envDown decisionBudgetPlus).decision
        = { decisionBudgetPlus with status := "failed" } ∧
    (execute_decision envDown decisionBudgetPlus).logs
        = ["Error getting ad set"] := by
  decide

/-- C7, amended: executing any existing decision against any remote world
terminates with status `executed` or `failed` and raises nothing (the
embedding is a total function, mirroring the catch-all `except`); every
failure is logged; but the stored record keeps its original
`decision_details` and `reasoning` — no error reason is persisted on it. -/
theorem C7_execute_terminal_status (env : Env) (d : AIDecision) :
    ((execute_decision env d).decision.status = "executed" ∨
      (execute_decision env d).decision.status = "failed") ∧
    (execute_decision env d).decision.decision_details = d.decision_details ∧
    (execute_decision env d).decision.reasoning = d.reasoning ∧
    ((execute_decision env d).decision.status = "failed" →
      (execute_decision env d).logs ≠ []) := by
  have h := execute_core_status env d.decision_type d.adset_id d.campaign_id
    d.decision_details.action_value
  rcases h with ⟨h1, _⟩ | ⟨h1, h2⟩
  · exact ⟨Or.inl h1, rfl, rfl, fun hf => absurd (h1.symm.trans hf) (by decide)⟩
  · exact ⟨Or.inr h1, rfl, rfl, fun _ => h2⟩

/-- C7, witness: the amended claim applied at the concrete failing input of
the counterexample — the failure is visible in the log. -/
theorem C7_witness :
    (execute_decision envDown decisionBudgetPlus).logs ≠ [] :=
  (C7_execute_terminal_status envDown decisionBudgetPlus).2.2.2 (by decide)

/-- C8, counterexample: `execute_decision` on a decision already in the
terminal state `executed` issues the remote mutation again and freshly stamps
the record — there is no check-and-set guard at all. -/
theorem C8_counterexample :
    decisionToggleDone.status = "executed" ∧
    (execute_decision envUp decisionToggleDone).calls
        = [RemoteCall.putAdsetStatus "as1" "PAUSED"] ∧
    (execute_decision envUp decisionToggleDone).decision.status = "executed" ∧
    (execute_decision envUp decisionToggleDone).decision.executed_at = some 0 := by
  decide

/-- C8, amended: `execute_decision` never reads the decision's status: the
remote calls it issues, the status it stores and the log it writes are
identical whatever the prior status, so a decision in a terminal state is
re-executed like any other. -/
theorem C8_no_status_check (env : Env) (d : AIDecision) (s : String) :
    (execute_decision env { d with status := s }).calls
        = (execute_decision env d).calls ∧
    (execute_decision env { d with status := s }).decision.status
        = (execute_decision env d).decision.status ∧
    (execute_decision env { d with status := s }).logs
        = (execute_decision env d).logs :=
  ⟨rfl, rfl, rfl⟩

/-- C9, counterexample: with `max_retries = 3` and a server that rate-limits
every attempt, `api_call` invokes the function 4 times (the initial attempt
plus 3 retries), not 3, before raising the permanent `MetaAPIError`. -/
theorem C9_counterexample :
    api_call 3 true (fun _ => some FBError.rateLimit) = CallResult.failed 4 := by
  decide

/-- C9, amended: against an always-rate-limiting server the client makes
exactly `max_retries + 1` attempts (the loop re-enters only while
`retry_count < max_retries`, and `retry_count` counts retries, not attempts)
and then reports permanent failure; against any server the attempt count is
bounded by `max_retries + 1`. -/
theorem C9_retry_bound (maxRetries : Nat) (refreshOk : Bool)
    (server : Nat → Option FBError) :
    api_call maxRetries refreshOk (fun _ => some FBError.rateLimit)
        = CallResult.failed (maxRetries + 1) ∧
    attemptsOf (api_call maxRetries refreshOk server) ≤ maxRetries + 1 := by
  constructor
  · have h := api_call_aux_rateLimit maxRetries refreshOk (maxRetries + 1) 0 0
      (by omega)
    simpa [api_call] using h
  · have h := attemptsOf_api_call_aux_le maxRetries refreshOk server
      (maxRetries + 1) 0 0
    simpa [api_call] using h

/-- C10: the evaluator's output is sorted by rule priority descending; it is
stable (for every priority value, the output restricted to that priority is
exactly the triggered list in input order restricted to it); and each
triggered rule carries its actions sorted by the action's own priority
descending. -/
theorem C10_evaluate_ordering (metrics : List (String × ℚ))
    (rules : List RuleEntry) :
    (evaluate_rules metrics rules).Pairwise (fun a b => b.priority ≤ a.priority) ∧
    (∀ p : Int,
      (evaluate_rules metrics rules).filter (fun tr => decide (tr.priority = p))
        = ((triggeredOf metrics rules).map mkTriggered).filter
            (fun tr => decide (tr.priority = p))) ∧
    (∀ tr ∈ evaluate_rules metrics rules,
      tr.actions.Pairwise (fun a b => b.priority ≤ a.priority)) := by
  refine ⟨sortByPriorityDesc_pairwise _ _, fun p => sortByPriorityDesc_stable _ _ p, ?_⟩
  intro tr htr
  unfold evaluate_rules at htr
  have hmem := (mem_sortByPriorityDesc (fun tr => tr.priority)
    ((triggeredOf metrics rules).map mkTriggered) tr).mp htr
  obtain ⟨r, _, rfl⟩ := List.mem_map.mp hmem
  exact sortByPriorityDesc_pairwise (fun a => a.priority) r.actions

/-- C10, witness: rules of priorities [5, 1, 9] come out ordered [9, 5, 1],
and the ordering theorem applies to that concrete evaluation. -/
theorem C10_witness :
    (evaluate_rules [] [ruleP5, ruleP1, ruleP9]).map (fun tr => tr.priority)
        = [9, 5, 1] ∧
    (mkTriggered ruleP9).actions.Pairwise (fun a b => b.priority ≤ a.priority) :=
  ⟨by decide,
   (C10_evaluate_ordering [] [ruleP5, ruleP1, ruleP9]).2.2 (mkTriggered ruleP9)
     (by decide)⟩
